import Mathlib

/-!
Verification of the return-calculation engine of the SnP500Predictor backend
(`backend/calculator.py` and the `/calculator` endpoint of `backend/main.py`).

Modelling conventions:
* Dates are day numbers (`Int`); `pd.to_datetime` of both input strings and the
  `DatetimeIndex` of a series is already applied, so `(end_dt - start_dt).days`
  is plain integer subtraction.
* A pandas series (`DataFrame` with a sorted `DatetimeIndex` and a `value`
  column) is a `List (Int × ℚ)` of (date, value) pairs, sorted ascending by date.
* Numeric values are `ℚ` (exact arithmetic in place of the floats of the code);
  the CAGR fields, which the code computes with a real-valued fractional power,
  are `ℝ` with `Real.rpow`.
* `round(x, 2)` of Python is `round2`: round to nearest of `x * 100`, divided
  by 100.
* Fallible functions return `Except CalcError _` in place of the
  `{"error": ...}` dictionaries of the code.
-/

/-- Error values of the calculator: the two `{"error": ...}` strings that
`calculator.py` can produce on its data-validation paths. -/
inductive CalcError where
  /-- "Insufficient S&P 500 data for the selected period." -/
  | insufficientSP500Data
  /-- "Insufficient CPI data for the selected period." -/
  | insufficientCPIData
deriving DecidableEq

/-- The `calculation_notes` string produced by `calculate_nominal_return`. -/
def nominalNote : String :=
  "Simplified calculation without actual dividend reinvestment."

/-- The `calculation_notes` string produced by `calculate_real_return`. -/
def realNote : String :=
  "Simplified nominal return (no dividend reinvestment). Real return adjusted using CPI."

/-- The result dictionary returned by `calculate_nominal_return` on success. -/
structure NominalResult where
  start_date : Int
  end_date : Int
  initial_investment : ℚ
  final_nominal_value : ℚ
  nominal_total_return_pct : ℚ
  calculation_notes : String
deriving DecidableEq

/-- The result dictionary after `calculate_real_return` has extended the
nominal result in place with the real-return and CAGR fields. -/
structure RealResult extends NominalResult where
  final_real_value : ℚ
  real_total_return_pct : ℚ
  total_inflation_pct : ℚ
  nominal_cagr_pct : ℝ
  real_cagr_pct : ℝ

/-- Python's `round(x, 2)` on exact rationals: round to two decimal places. -/
def round2 (x : ℚ) : ℚ := ((round (x * 100) : ℤ) : ℚ) / 100

/-- `round(x, 2)` for the real-valued CAGR computation. -/
noncomputable def round2R (x : ℝ) : ℝ := ((round (x * 100) : ℤ) : ℝ) / 100

/-- `sp500_data[(sp500_data.index >= start_dt) & (sp500_data.index <= end_dt)]`:
the series restricted to observations with dates in `[start_dt, end_dt]`. -/
def relevantData (start_dt end_dt : Int) (data : List (Int × ℚ)) : List (Int × ℚ) :=
  data.filter (fun p => decide (start_dt ≤ p.1 ∧ p.1 ≤ end_dt))

/-- `cpi_data['value'].asof(d)`: the value of the last observation whose date is
at or before `d`, or `none` when no such observation exists (pandas `NaN`). -/
def asof (data : List (Int × ℚ)) (d : Int) : Option ℚ :=
  ((data.filter (fun p => decide (p.1 ≤ d))).getLast?).map Prod.snd

/-- `calculate_nominal_return` of `backend/calculator.py`.  Restricts the
series to `[start_date, end_date]`; returns the `InsufficientData` error when
the restriction is empty (the coverage comparison of the first/last in-range
date against the bounds only prints a warning); otherwise computes the price
return from the first and last in-range observations. -/
def calculate_nominal_return (start_date end_date : Int) (initial_investment : ℚ)
    (sp500_data : List (Int × ℚ)) : Except CalcError NominalResult :=
  let relevant := relevantData start_date end_date sp500_data
  if h : relevant = [] then
    Except.error CalcError.insufficientSP500Data
  else
    let start_price := (relevant.head h).2
    let end_price := (relevant.getLast h).2
    let price_return := end_price / start_price - 1
    let estimated_total_return_factor := 1 + price_return
    let final_value := initial_investment * estimated_total_return_factor
    let total_return_pct := estimated_total_return_factor - 1
    Except.ok
      { start_date := start_date
        end_date := end_date
        initial_investment := initial_investment
        final_nominal_value := round2 final_value
        nominal_total_return_pct := round2 (total_return_pct * 100)
        calculation_notes := nominalNote }

/-- Elapsed years used by the CAGR step: `(end_dt - start_dt).days / 365.25`. -/
def elapsedYears (start_dt end_dt : Int) : ℚ := ((end_dt - start_dt : Int) : ℚ) / (1461 / 4)

/-- `calculate_real_return` of `backend/calculator.py`.  Passes a prior error
through unchanged; otherwise looks up CPI as-of the two dates, fails when a
lookup is missing or the start CPI is 0, and extends the nominal result with
the real-return, inflation and CAGR fields, replacing `calculation_notes`. -/
noncomputable def calculate_real_return (nominal_result : Except CalcError NominalResult)
    (start_date end_date : Int) (cpi_data : List (Int × ℚ)) : Except CalcError RealResult :=
  match nominal_result with
  | Except.error e => Except.error e
  | Except.ok nr =>
    match asof cpi_data start_date, asof cpi_data end_date with
    | some cpi_start_val, some cpi_end_val =>
      if cpi_start_val = 0 then
        Except.error CalcError.insufficientCPIData
      else
        let inflation_rate := cpi_end_val / cpi_start_val - 1
        let nominal_total_return_factor := 1 + nr.nominal_total_return_pct / 100
        let real_return_factor := nominal_total_return_factor / (1 + inflation_rate)
        let real_total_return_pct := (real_return_factor - 1) * 100
        let final_real_value := nr.initial_investment * real_return_factor
        let years := elapsedYears start_date end_date
        let nominal_cagr : ℝ :=
          if 0 < years then
            round2R (((nominal_total_return_factor : ℝ) ^ ((1 : ℝ) / (years : ℝ)) - 1) * 100)
          else 0
        let real_cagr : ℝ :=
          if 0 < years then
            round2R (((real_return_factor : ℝ) ^ ((1 : ℝ) / (years : ℝ)) - 1) * 100)
          else 0
        Except.ok
          { nr with
            final_real_value := round2 final_real_value
            real_total_return_pct := round2 real_total_return_pct
            total_inflation_pct := round2 (inflation_rate * 100)
            nominal_cagr_pct := nominal_cagr
            real_cagr_pct := real_cagr
            calculation_notes := realNote }
    | _, _ => Except.error CalcError.insufficientCPIData

/-- The two calculator stages run in sequence, as the `/calculator` endpoint
invokes them. -/
noncomputable def full_calculation (start_date end_date : Int) (initial_investment : ℚ)
    (sp500_data cpi_data : List (Int × ℚ)) : Except CalcError RealResult :=
  calculate_real_return
    (calculate_nominal_return start_date end_date initial_investment sp500_data)
    start_date end_date cpi_data

/-- Observable outcome of a `/calculator` request in `backend/main.py`:
either the final result record serialized as JSON, or an `HTTPException`
with the given status code. -/
inductive EndpointResponse where
  /-- 200 with the final result record. -/
  | success (result : RealResult)
  /-- 503 "Historical data is not available or failed to load." -/
  | unavailable
  /-- 400 "Start date must be before end date." -/
  | invalidRange
  /-- 400 "Nominal calculation error: ...". -/
  | nominalError (e : CalcError)
  /-- 400 "Real calculation error: ...". -/
  | realError (e : CalcError)

/-- HTTP status code of an endpoint response. -/
def EndpointResponse.status : EndpointResponse → Nat
  | EndpointResponse.success _ => 200
  | EndpointResponse.unavailable => 503
  | EndpointResponse.invalidRange => 400
  | EndpointResponse.nominalError _ => 400
  | EndpointResponse.realError _ => 400

/-- `calculate_returns_endpoint` of `backend/main.py`: the `POST /calculator`
handler.  Checks the data caches (503 when either is `None` or empty), then
the date range (400 when `start_date >= end_date`), and only then calls the
two calculator stages, converting their error values to 400 responses. -/
noncomputable def calculate_returns_endpoint
    (sp500_cache cpi_cache : Option (List (Int × ℚ)))
    (start_date end_date : Int) (initial_investment : ℚ) : EndpointResponse :=
  match sp500_cache, cpi_cache with
  | some sp500_data, some cpi_data =>
    if sp500_data = [] ∨ cpi_data = [] then
      EndpointResponse.unavailable
    else if end_date ≤ start_date then
      EndpointResponse.invalidRange
    else
      match calculate_nominal_return start_date end_date initial_investment sp500_data with
      | Except.error e => EndpointResponse.nominalError e
      | Except.ok nr =>
        match calculate_real_return (Except.ok nr) start_date end_date cpi_data with
        | Except.error e => EndpointResponse.realError e
        | Except.ok r => EndpointResponse.success r
  | _, _ => EndpointResponse.unavailable

/-! ## Theorems about the claims -/

/-- C1 (counterexample): a series whose only observation lies strictly inside
the window — the restriction is `[(5, 100)]`, its first date 5 is strictly
after the start 0, so coverage is partial — nevertheless produces a result
computed from the available observation, not an `InsufficientData` error. -/
theorem partial_coverage_returns_ok :
    relevantData 0 10 [(5, 100)] = [(5, 100)] ∧ (0 : Int) < 5 ∧ (0 : Int) < 10 ∧
    calculate_nominal_return 0 10 1000 [(5, 100)] =
      Except.ok ⟨0, 10, 1000, 1000, 0, nominalNote⟩ := by
  refine ⟨by norm_num [relevantData, List.filter], by norm_num, by norm_num, ?_⟩
  norm_num [calculate_nominal_return, relevantData, round2, round_eq, List.filter]

/-- C1 (amended): `calculate_nominal_return` returns the `InsufficientData`
error exactly when the series restricted to `[start, end]` is empty; a
non-empty restriction that only partially covers the window is still computed
from the available first/last in-range observations (the coverage comparison
in the code only prints a warning). -/
theorem nominal_error_iff_restriction_empty (s e : Int) (inv : ℚ)
    (data : List (Int × ℚ)) (_hse : s < e) :
    calculate_nominal_return s e inv data = Except.error CalcError.insufficientSP500Data ↔
      relevantData s e data = [] := by
  unfold calculate_nominal_return
  dsimp only
  split <;> simp_all

/-- Witness for `nominal_error_iff_restriction_empty` at a concrete input. -/
theorem nominal_error_iff_restriction_empty_witness :
    (0 : Int) < 10 ∧
    (calculate_nominal_return 0 10 1000 [(5, 100)] =
        Except.error CalcError.insufficientSP500Data ↔
      relevantData 0 10 [(5, 100)] = []) :=
  ⟨by norm_num, nominal_error_iff_restriction_empty 0 10 1000 [(5, 100)] (by norm_num)⟩

/-- C2 (counterexample): a successful calculation with CPI 100 at both ends —
so the computed inflation rate `100 / 100 - 1` is exactly 0 — and a nominal
return of 100% yields `real_total_return_pct = 100`, not 0. -/
theorem zero_inflation_nonzero_real_return :
    asof [(0, 100), (10, 100)] 0 = some 100 ∧
    asof [(0, 100), (10, 100)] 10 = some 100 ∧
    (100 : ℚ) / 100 - 1 = 0 ∧
    (calculate_real_return (Except.ok ⟨0, 10, 1000, 2000, 100, nominalNote⟩)
        0 10 [(0, 100), (10, 100)]).map (fun r => r.real_total_return_pct) =
      Except.ok 100 ∧
    (100 : ℚ) ≠ 0 := by
  refine ⟨by norm_num [asof, List.filter], by norm_num [asof, List.filter], by norm_num, ?_,
    by norm_num⟩
  norm_num [calculate_real_return, asof, round2, round_eq, List.filter, Except.map]

/-- C2 (amended): in a successful calculation whose computed inflation rate is
exactly 0, the real return equals the (re-rounded) nominal return percentage —
it is 0 only when the nominal return itself is 0, not regardless of it. -/
theorem zero_inflation_real_return_eq_nominal (nr : NominalResult) (s e : Int)
    (cpi : List (Int × ℚ)) (cs ce : ℚ)
    (h1 : asof cpi s = some cs) (h2 : asof cpi e = some ce)
    (h3 : cs ≠ 0) (h4 : ce / cs - 1 = 0) :
    (calculate_real_return (Except.ok nr) s e cpi).map (fun r => r.real_total_return_pct) =
      Except.ok (round2 nr.nominal_total_return_pct) := by
  unfold calculate_real_return
  rw [h1, h2]
  simp only [if_neg h3, Except.map, h4]
  norm_num

/-- Witness for `zero_inflation_real_return_eq_nominal` at a concrete input. -/
theorem zero_inflation_real_return_eq_nominal_witness :
    asof [(0, 100)] 0 = some 100 ∧ (100 : ℚ) ≠ 0 ∧ (100 : ℚ) / 100 - 1 = 0 ∧
    (calculate_real_return (Except.ok ⟨0, 0, 1000, 2000, 100, nominalNote⟩)
        0 0 [(0, 100)]).map (fun r => r.real_total_return_pct) =
      Except.ok (round2 100) :=
  ⟨by norm_num [asof, List.filter], by norm_num, by norm_num,
    zero_inflation_real_return_eq_nominal ⟨0, 0, 1000, 2000, 100, nominalNote⟩ 0 0
      [(0, 100)] 100 100 (by norm_num [asof, List.filter])
      (by norm_num [asof, List.filter]) (by norm_num) (by norm_num)⟩

/-- C5: given a non-error nominal stage, `calculate_real_return` fails (with
the CPI `InsufficientData` error, the only error it ever produces itself) if
and only if the as-of CPI lookup at `start` is missing, or the as-of lookup at
`end` is missing, or the start CPI value is exactly 0. -/
theorem real_return_insufficient_iff (nr : NominalResult) (s e : Int)
    (cpi : List (Int × ℚ)) :
    calculate_real_return (Except.ok nr) s e cpi = Except.error CalcError.insufficientCPIData ↔
      (asof cpi s = none ∨ asof cpi e = none ∨ asof cpi s = some 0) := by
  unfold calculate_real_return
  rcases hs : asof cpi s with _ | cs <;> rcases he : asof cpi e with _ | ce
  · simp_all
  · simp_all
  · simp_all
  · by_cases hz : cs = 0 <;> simp_all

/-- Witness for `real_return_insufficient_iff` at a concrete input. -/
theorem real_return_insufficient_iff_witness :
    calculate_real_return (Except.ok ⟨0, 0, 1, 1, 0, nominalNote⟩) 0 0 [] =
        Except.error CalcError.insufficientCPIData ↔
      (asof [] 0 = none ∨ asof [] 0 = none ∨ asof [] 0 = some 0) :=
  real_return_insufficient_iff ⟨0, 0, 1, 1, 0, nominalNote⟩ 0 0 []

/-- C6: `calculate_real_return` passes a prior nominal-stage error value
through unchanged — the result is exactly that error, so no CPI lookup result
or partial stage-2 field can appear alongside it. -/
theorem real_return_passes_error_through (err : CalcError) (s e : Int)
    (cpi : List (Int × ℚ)) :
    calculate_real_return (Except.error err) s e cpi = Except.error err := rfl

/-- C9: the full two-stage calculation is deterministic — two runs on
identical start/end dates, investment, price series and CPI series produce
identical output records. -/
theorem full_calculation_deterministic (s1 e1 : Int) (i1 : ℚ)
    (p1 c1 : List (Int × ℚ)) (s2 e2 : Int) (i2 : ℚ) (p2 c2 : List (Int × ℚ))
    (hs : s1 = s2) (he : e1 = e2) (hi : i1 = i2) (hp : p1 = p2) (hc : c1 = c2) :
    full_calculation s1 e1 i1 p1 c1 = full_calculation s2 e2 i2 p2 c2 := by
  rw [hs, he, hi, hp, hc]

/-- Witness for `full_calculation_deterministic` at a concrete input. -/
theorem full_calculation_deterministic_witness :
    full_calculation 0 10 1000 [(0, 100), (10, 200)] [(0, 100), (10, 102)] =
      full_calculation 0 10 1000 [(0, 100), (10, 200)] [(0, 100), (10, 102)] :=
  full_calculation_deterministic 0 10 1000 [(0, 100), (10, 200)] [(0, 100), (10, 102)]
    0 10 1000 [(0, 100), (10, 200)] [(0, 100), (10, 102)] rfl rfl rfl rfl rfl

/-- C3: with full coverage (non-empty restriction whose first observation is
at or before `start` and last at or before... i.e. last at or after `end`),
`calculate_nominal_return` returns the record whose return percentage is
`(end_price / start_price - 1) * 100` and whose final value is
`initial_investment * (1 + (end_price / start_price - 1))`, each rounded to
two decimal places, taking the first/last in-range observation values. -/
theorem nominal_return_formula (s e : Int) (inv : ℚ) (data : List (Int × ℚ))
    (pfirst plast : Int × ℚ) (_hse : s < e) (_hinv : 0 < inv)
    (hhead : (relevantData s e data).head? = some pfirst)
    (hlast : (relevantData s e data).getLast? = some plast)
    (_hcov1 : pfirst.1 ≤ s) (_hcov2 : e ≤ plast.1) :
    calculate_nominal_return s e inv data = Except.ok
      { start_date := s, end_date := e, initial_investment := inv,
        final_nominal_value := round2 (inv * (1 + (plast.2 / pfirst.2 - 1))),
        nominal_total_return_pct := round2 ((plast.2 / pfirst.2 - 1) * 100),
        calculation_notes := nominalNote } := by
  have hne : relevantData s e data ≠ [] := by
    intro h0
    rw [h0] at hhead
    simp at hhead
  have hd : (relevantData s e data).head hne = pfirst := by
    have := List.head?_eq_head hne
    rw [this] at hhead
    exact Option.some.inj hhead
  have hl : (relevantData s e data).getLast hne = plast := by
    have := List.getLast?_eq_getLast _ hne
    rw [this] at hlast
    exact Option.some.inj hlast
  unfold calculate_nominal_return
  dsimp only
  rw [dif_neg hne, hd, hl]
  norm_num

/-- Witness for `nominal_return_formula` at a concrete input. -/
theorem nominal_return_formula_witness :
    (0 : Int) < 10 ∧ (0 : ℚ) < 1000 ∧
    (relevantData 0 10 [(0, 100), (10, 200)]).head? = some (0, 100) ∧
    (relevantData 0 10 [(0, 100), (10, 200)]).getLast? = some (10, 200) ∧
    calculate_nominal_return 0 10 1000 [(0, 100), (10, 200)] = Except.ok
      { start_date := 0, end_date := 10, initial_investment := 1000,
        final_nominal_value := round2 (1000 * (1 + ((200 : ℚ) / 100 - 1))),
        nominal_total_return_pct := round2 (((200 : ℚ) / 100 - 1) * 100),
        calculation_notes := nominalNote } :=
  ⟨by norm_num, by norm_num, by norm_num [relevantData, List.filter],
    by norm_num [relevantData, List.filter],
    nominal_return_formula 0 10 1000 [(0, 100), (10, 200)] (0, 100) (10, 200)
      (by norm_num) (by norm_num) (by norm_num [relevantData, List.filter])
      (by norm_num [relevantData, List.filter]) (by norm_num) (by norm_num)⟩

/-- C4: in a successful real-return calculation, when the elapsed years
`(end - start) / 365.25` are strictly positive, the CAGR fields are
`(factor ^ (1 / years) - 1) * 100` rounded to two decimal places for the
nominal and real factors respectively; otherwise both are exactly 0 — the
exponent `1 / years` is only ever formed under the `0 < years` guard. -/
theorem cagr_fields_formula (nr : NominalResult) (s e : Int)
    (cpi : List (Int × ℚ)) (cs ce : ℚ)
    (h1 : asof cpi s = some cs) (h2 : asof cpi e = some ce) (h3 : cs ≠ 0) :
    (0 < elapsedYears s e →
      (calculate_real_return (Except.ok nr) s e cpi).map
          (fun r => (r.nominal_cagr_pct, r.real_cagr_pct)) =
        Except.ok
          (round2R ((((1 + nr.nominal_total_return_pct / 100 : ℚ) : ℝ) ^
              ((1 : ℝ) / ((elapsedYears s e : ℚ) : ℝ)) - 1) * 100),
           round2R (((((1 + nr.nominal_total_return_pct / 100) / (1 + (ce / cs - 1)) : ℚ) : ℝ) ^
              ((1 : ℝ) / ((elapsedYears s e : ℚ) : ℝ)) - 1) * 100))) ∧
    (¬ 0 < elapsedYears s e →
      (calculate_real_return (Except.ok nr) s e cpi).map
          (fun r => (r.nominal_cagr_pct, r.real_cagr_pct)) =
        Except.ok ((0 : ℝ), (0 : ℝ))) := by
  unfold calculate_real_return
  rw [h1, h2]
  simp only [if_neg h3, Except.map]
  constructor <;> intro hy <;> simp [hy]

/-- Witness for `cagr_fields_formula` at a concrete input. -/
theorem cagr_fields_formula_witness :
    asof [(0, 100)] 0 = some 100 ∧ (100 : ℚ) ≠ 0 ∧
    ((0 < elapsedYears 0 0 →
      (calculate_real_return (Except.ok ⟨0, 0, 1000, 2000, 100, nominalNote⟩) 0 0
          [(0, 100)]).map (fun r => (r.nominal_cagr_pct, r.real_cagr_pct)) =
        Except.ok
          (round2R ((((1 + (100 : ℚ) / 100 : ℚ) : ℝ) ^
              ((1 : ℝ) / ((elapsedYears 0 0 : ℚ) : ℝ)) - 1) * 100),
           round2R (((((1 + (100 : ℚ) / 100) / (1 + ((100 : ℚ) / 100 - 1)) : ℚ) : ℝ) ^
              ((1 : ℝ) / ((elapsedYears 0 0 : ℚ) : ℝ)) - 1) * 100))) ∧
    (¬ 0 < elapsedYears 0 0 →
      (calculate_real_return (Except.ok ⟨0, 0, 1000, 2000, 100, nominalNote⟩) 0 0
          [(0, 100)]).map (fun r => (r.nominal_cagr_pct, r.real_cagr_pct)) =
        Except.ok ((0 : ℝ), (0 : ℝ)))) :=
  ⟨by norm_num [asof, List.filter], by norm_num,
    cagr_fields_formula ⟨0, 0, 1000, 2000, 100, nominalNote⟩ 0 0 [(0, 100)] 100 100
      (by norm_num [asof, List.filter]) (by norm_num [asof, List.filter]) (by norm_num)⟩

/-- C7: both calculator stages are total: for every input each returns a
structured value — a result record (`Except.ok`) or an error value
(`Except.error`) — and nothing else; every failure path produces an error
value rather than escaping the function. -/
theorem calculator_total_no_exception (s e : Int) (inv : ℚ)
    (data : List (Int × ℚ)) (nominal_input : Except CalcError NominalResult)
    (cpi : List (Int × ℚ)) :
    ((∃ r, calculate_nominal_return s e inv data = Except.ok r) ∨
      (∃ err, calculate_nominal_return s e inv data = Except.error err)) ∧
    ((∃ r, calculate_real_return nominal_input s e cpi = Except.ok r) ∨
      (∃ err, calculate_real_return nominal_input s e cpi = Except.error err)) := by
  constructor
  · cases h : calculate_nominal_return s e inv data
    · exact Or.inr ⟨_, rfl⟩
    · exact Or.inl ⟨_, rfl⟩
  · cases h : calculate_real_return nominal_input s e cpi
    · exact Or.inr ⟨_, rfl⟩
    · exact Or.inl ⟨_, rfl⟩

/-- C8: when both data caches are loaded and non-empty and the requested
`start_date` is at or after `end_date`, the `/calculator` endpoint answers
with the 400 invalid-range error; the response is this constant for every
loaded cache content, so no series lookup or calculator stage contributes
to it. -/
theorem endpoint_invalid_range_before_lookup (sp cpi : List (Int × ℚ))
    (s e : Int) (inv : ℚ)
    (hsp : sp ≠ []) (hcpi : cpi ≠ []) (hrange : e ≤ s) :
    calculate_returns_endpoint (some sp) (some cpi) s e inv =
      EndpointResponse.invalidRange ∧
    (calculate_returns_endpoint (some sp) (some cpi) s e inv).status = 400 := by
  have h1 : ¬(sp = [] ∨ cpi = []) := by
    rintro (h | h)
    · exact hsp h
    · exact hcpi h
  have hmain : calculate_returns_endpoint (some sp) (some cpi) s e inv =
      EndpointResponse.invalidRange := by
    unfold calculate_returns_endpoint
    dsimp only
    rw [if_neg h1, if_pos hrange]
  exact ⟨hmain, by rw [hmain]; rfl⟩

/-- Witness for `endpoint_invalid_range_before_lookup` at a concrete input. -/
theorem endpoint_invalid_range_before_lookup_witness :
    ([((0 : Int), (1 : ℚ))] ≠ []) ∧ ([((0 : Int), (1 : ℚ))] ≠ []) ∧ ((5 : Int) ≤ 5) ∧
    (calculate_returns_endpoint (some [(0, 1)]) (some [(0, 1)]) 5 5 1 =
      EndpointResponse.invalidRange ∧
    (calculate_returns_endpoint (some [(0, 1)]) (some [(0, 1)]) 5 5 1).status = 400) :=
  ⟨by norm_num, by norm_num, by norm_num,
    endpoint_invalid_range_before_lookup [(0, 1)] [(0, 1)] 5 5 1
      (by norm_num) (by norm_num) (by norm_num)⟩

/-- C10: on success `calculate_real_return` returns the nominal record
extended with the real-return fields: `start_date`, `end_date`,
`initial_investment`, `final_nominal_value` and `nominal_total_return_pct`
are carried over unchanged, while `calculation_notes` is replaced with the
real-stage note, a string different from the nominal-stage note. -/
theorem real_return_extends_nominal_in_place (nr : NominalResult) (s e : Int)
    (cpi : List (Int × ℚ)) (cs ce : ℚ)
    (h1 : asof cpi s = some cs) (h2 : asof cpi e = some ce) (h3 : cs ≠ 0) :
    (calculate_real_return (Except.ok nr) s e cpi).map
        (fun r => (r.start_date, r.end_date, r.initial_investment,
          r.final_nominal_value, r.nominal_total_return_pct, r.calculation_notes)) =
      Except.ok (nr.start_date, nr.end_date, nr.initial_investment,
        nr.final_nominal_value, nr.nominal_total_return_pct, realNote) ∧
    realNote ≠ nominalNote := by
  refine ⟨?_, by simp [realNote, nominalNote]⟩
  unfold calculate_real_return
  rw [h1, h2]
  simp [if_neg h3, Except.map]

/-- Witness for `real_return_extends_nominal_in_place` at a concrete input. -/
theorem real_return_extends_nominal_in_place_witness :
    asof [(0, 100)] 0 = some 100 ∧ (100 : ℚ) ≠ 0 ∧
    ((calculate_real_return (Except.ok ⟨3, 7, 1000, 1100, 10, nominalNote⟩) 0 0
        [(0, 100)]).map
        (fun r => (r.start_date, r.end_date, r.initial_investment,
          r.final_nominal_value, r.nominal_total_return_pct, r.calculation_notes)) =
      Except.ok (3, 7, 1000, 1100, 10, realNote) ∧
    realNote ≠ nominalNote) :=
  ⟨by norm_num [asof, List.filter], by norm_num,
    real_return_extends_nominal_in_place ⟨3, 7, 1000, 1100, 10, nominalNote⟩ 0 0
      [(0, 100)] 100 100 (by norm_num [asof, List.filter])
      (by norm_num [asof, List.filter]) (by norm_num)⟩
